import Mathlib

/-! ### Definitions (shallow embedding of the sources) -/

/-- `d.get(k, dflt)` on an insertion-ordered association list. -/
def dget {β : Type} (d : List (String × β)) (k : String) (dflt : β) : β :=
  (List.lookup k d).getD dflt

/-- `next(iter(d.values()))`: the first value of the dictionary.  The source
only applies this to non-empty dictionary literals, so the default for the
empty case is never reached. -/
def firstVal {β : Type} (d : List (String × β)) (dflt : β) : β :=
  match d with
  | [] => dflt
  | p :: _ => p.2

/-- Floor of a rational, computably (`Int.fdiv` floors for a positive
denominator). -/
def ratFloor (q : ℚ) : ℤ := q.num.fdiv q.den

/-- Round to the nearest integer, ties to the even integer: Python 3's
`round` on an exact decimal value. -/
def roundHalfEven (y : ℚ) : ℤ :=
  if y - ratFloor y = 1/2 then
    (if ratFloor y % 2 = 0 then ratFloor y else ratFloor y + 1)
  else round y

/-- Python's `round(x, n)` on an exact decimal reading of the float:
round-half-to-even at the `n`-th decimal place. -/
def pyRound (n : ℕ) (x : ℚ) : ℚ := (roundHalfEven (10^n * x) : ℚ) / 10^n

/-- `ACTIVITY_MULTIPLIERS` from health_metrics.py. -/
def ACTIVITY_MULTIPLIERS : List (String × ℚ) := [
  ("Sedentary", 1.2),
  ("Lightly Active", 1.375),
  ("Moderately Active", 1.55),
  ("Very Active", 1.725),
  ("Extremely Active", 1.9)]

/-- `BMI_CATEGORIES` from health_metrics.py: `(lo, hi, label, emoji)` bands,
scanned in order. -/
def BMI_CATEGORIES : List (ℚ × ℚ × String × String) := [
  (0, 18.5, "Underweight", "🔵"),
  (18.5, 25.0, "Normal Weight", "🟢"),
  (25.0, 30.0, "Overweight", "🟡"),
  (30.0, 35.0, "Obese Class I", "🟠"),
  (35.0, 40.0, "Obese Class II", "🔴"),
  (40.0, 999, "Obese Class III", "🔴")]

/-- The `user_data` dict fields that `HealthMetrics.__init__` reads. -/
structure UserData where
  age : ℚ
  gender : String
  height_cm : ℚ
  weight_kg : ℚ
  activity_level : String
  fitness_goal : String

/-- `HealthMetrics.bmi`. -/
def bmi (u : UserData) : ℚ := u.weight_kg / (u.height_cm / 100)^2

/-- The `for lo, hi, label, emoji in BMI_CATEGORIES` loop of
`HealthMetrics.bmi_category`: first band with `lo <= b < hi` wins. -/
def bmiCategoryScan (b : ℚ) : List (ℚ × ℚ × String × String) → Option (String × String)
  | [] => none
  | (lo, hi, label, emoji) :: rest =>
    if lo ≤ b ∧ b < hi then some (label, emoji) else bmiCategoryScan b rest

/-- The `label` field of `HealthMetrics.bmi_category` as a function of the
bmi value (the returned dict also carries the emoji and `round(b, 1)`). -/
def bmi_category_label (b : ℚ) : String :=
  match bmiCategoryScan b BMI_CATEGORIES with
  | some p => p.1
  | none => "Unknown"

/-- `HealthMetrics.bmr` (Harris-Benedict revised). -/
def bmr (u : UserData) : ℚ :=
  if u.gender = "Male" then
    88.362 + (13.397 * u.weight_kg) + (4.799 * u.height_cm) - (5.677 * u.age)
  else
    447.593 + (9.247 * u.weight_kg) + (3.098 * u.height_cm) - (4.330 * u.age)

/-- `HealthMetrics.tdee`. -/
def tdee (u : UserData) : ℚ :=
  bmr u * dget ACTIVITY_MULTIPLIERS u.activity_level 1.55

/-- The macro record `_compute_macros` returns. -/
structure Macros where
  protein_g : ℚ
  carbs_g : ℚ
  fat_g : ℚ
  protein_pct : ℚ
  carbs_pct : ℚ
  fat_pct : ℚ

/-- The `splits` table of `_compute_macros`: `(protein, carbs, fat)`. -/
def macroSplits : List (String × (ℚ × ℚ × ℚ)) := [
  ("Weight Loss", (0.35, 0.35, 0.30)),
  ("Muscle Gain", (0.30, 0.45, 0.25)),
  ("Endurance", (0.20, 0.55, 0.25)),
  ("General Fitness", (0.25, 0.45, 0.30)),
  ("Maintenance", (0.25, 0.45, 0.30))]

/-- `_compute_macros(calories, goal)` from app_f.py: unknown goals fall back
to the "General Fitness" row. -/
def compute_macros (calories : ℚ) (goal : String) : Macros :=
  let split := dget macroSplits goal (0.25, 0.45, 0.30)
  { protein_g := pyRound 1 (calories * split.1 / 4)
    carbs_g := pyRound 1 (calories * split.2.1 / 4)
    fat_g := pyRound 1 (calories * split.2.2 / 9)
    protein_pct := split.1
    carbs_pct := split.2.1
    fat_pct := split.2.2 }

/-- The profile of the spec's end-to-end worked example. -/
def exampleProfile : UserData :=
  { age := 28, gender := "Male", height_cm := 170, weight_kg := 70,
    activity_level := "Moderately Active", fitness_goal := "Weight Loss" }

/-- `_StubScaler.transform`: identity on the feature matrix.  The `rng`
argument of each stub models the ambient NumPy global random state
available at call time; of the five stubs only `_StubDTR.predict` reads
it. -/
def stubScalerTransform (X : List (List ℚ)) (rng : List ℚ) : List (List ℚ) := X

/-- One row of `_StubKMeans.predict`: `(np.sum(arr, axis=1) % 4).astype(int)`
— the float remainder lies in [0, 4), so `astype(int)` is its floor. -/
def stubKMeansRow (row : List ℚ) : ℤ :=
  ⌊row.sum - 4 * (⌊row.sum / 4⌋ : ℚ)⌋

/-- `_StubKMeans.predict`. -/
def stubKMeansPredict (X : List (List ℚ)) (rng : List ℚ) : List ℤ :=
  X.map stubKMeansRow

/-- `_StubPreprocessor.transform`: the values of the frame, unchanged. -/
def stubPreprocessorTransform (df : List (List ℚ)) (rng : List ℚ) : List (List ℚ) :=
  df

/-- A possible value of one `np.random.uniform(0.95, 1.05)` draw. -/
def jitterDraw (d : ℚ) : Prop := 0.95 ≤ d ∧ d < 1.05

/-- `_StubDTR.predict`: for a 2-D input with at least one column,
`arr[:, 0] * np.random.uniform(0.95, 1.05, size=arr.shape[0])` — each
row's first entry times a fresh uniform draw from the global NumPy random
state (`draws`, one per row); otherwise `np.array([2000.0])`. -/
def stubDTRPredict (arr : List (List ℚ)) (draws : List ℚ) : List ℚ :=
  if 0 < (arr.headD []).length then
    List.zipWith (fun row d => row.headD 0 * d) arr draws
  else [2000.0]

/-- `_StubSentenceTransformer.encode`, up to the PRNG: the returned matrix
is `rng.standard_normal((n, 384))` row-normalised, for
`rng = np.random.default_rng(abs(hash(str(sentences))) % 2**32)` — a fixed
function of the pair (seed, row count), which is what we embed.  `hashAbs`
models Python's session-fixed `abs(hash(str(·)))`.  The ambient random
state `rng` is unused because the stub builds its own generator from the
input-derived seed. -/
def stubSTEncode (hashAbs : List String → ℕ) (sentences : List String)
    (rng : List ℚ) : ℕ × ℕ :=
  (hashAbs sentences % 2^32, sentences.length)

/-- `ModelLoader.predict_calories`: `float(np.clip(result[0], 1200, 6000))`
as a function of the raw model/stub prediction vector `result`
(`np.clip(a, lo, hi) = np.minimum(hi, np.maximum(a, lo))`). -/
def predict_calories (result : List ℚ) : ℚ :=
  min (max (result.headD 0) 1200) 6000

/-- `ModelLoader._build_candidate_bank`: a fixed 18-sentence bank,
independent of its `fitness_level` / `fitness_goal` arguments. -/
def build_candidate_bank (fitness_level fitness_goal : String) : List String := [
  "Avoid high-impact exercises due to knee pain; substitute with low-impact alternatives.",
  "Incorporate swimming or cycling for cardiovascular training.",
  "Focus on upper-body exercises only to protect lower back injury.",
  "Add yoga and mobility work for flexibility improvement.",
  "Include daily stretching routine for injury prevention.",
  "Prefer plant-based protein sources like lentils, tofu, and tempeh.",
  "Avoid gluten-containing foods; use rice and quinoa as carb bases.",
  "Incorporate high-fibre vegetables for digestive health.",
  "Reduce sodium intake; focus on whole, unprocessed foods.",
  "Include omega-3 rich foods like flaxseed and walnuts.",
  "Prefer spicy cuisine; incorporate jalapeños and hot sauce.",
  "Focus on quick-prep meals under 20 minutes.",
  "Batch-cook on Sundays for the week ahead.",
  "Include intermittent fasting window (16:8).",
  "Focus on progressive overload with barbell compound movements.",
  "Use resistance bands as primary equipment for home workouts.",
  "Incorporate HIIT sessions three times per week.",
  "Prioritise recovery; include active rest days with walking."]

/-- `np.argsort(sims)[::-1]`: the indices of `sims` sorted by value
ascending, then reversed. -/
def argsortDesc (sims : List ℚ) : List ℕ :=
  ((List.range sims.length).mergeSort
    (fun i j => decide (sims.getD i 0 ≤ sims.getD j 0))).reverse

/-- `ModelLoader.match_preferences` as a function of the cosine-similarity
vector `sims` computed for the query against `candidates` (the
384-dimensional float embeddings are outside the rational embedding, so
the similarity vector is the function's input here; the properties proved
below hold for an arbitrary vector, hence under whatever encoder is in
use): `top_idx = np.argsort(sims)[::-1][:3]`, then
`[candidates[i] for i in top_idx if sims[i] > 0.25]`. -/
def match_preferences (sims : List ℚ) (candidates : List String) : List String :=
  let top_idx := (argsortDesc sims).take 3
  (top_idx.filter (fun i => decide (sims.getD i 0 > 0.25))).map
    (fun i => candidates.getD i "")

/-- One entry of an `EXERCISE_DB` exercise list: name, sets descriptor,
target muscle. -/
structure Exercise where
  name : String
  sets : String
  muscle : String
  deriving DecidableEq

/-- Shorthand constructor for `Exercise`. -/
def ex (n s m : String) : Exercise := ⟨n, s, m⟩

/-- EXERCISE_DB["Beginner"]["Weight Loss"]["Bodyweight"]. -/
def begWL_bodyweight : List Exercise := [
  ex "Jumping Jacks" "3×30s" "Full Body",
  ex "Bodyweight Squats" "3×15" "Quads / Glutes",
  ex "Push-ups (Knee)" "3×10" "Chest / Triceps",
  ex "Mountain Climbers" "3×20" "Core / Cardio",
  ex "Glute Bridges" "3×15" "Glutes / Hamstrings",
  ex "Plank Hold" "3×20s" "Core"]

/-- EXERCISE_DB["Beginner"]["Weight Loss"]["Dumbbells"]. -/
def begWL_dumbbells : List Exercise := [
  ex "DB Goblet Squat" "3×12" "Quads",
  ex "DB Romanian Deadlift" "3×12" "Hamstrings",
  ex "DB Shoulder Press" "3×10" "Shoulders",
  ex "DB Bent-over Row" "3×12" "Back",
  ex "DB Bicep Curl" "3×12" "Biceps",
  ex "DB Tricep Kickback" "3×12" "Triceps"]

/-- EXERCISE_DB["Beginner"]["Muscle Gain"]["Bodyweight"]. -/
def begMG_bodyweight : List Exercise := [
  ex "Push-ups" "4×12" "Chest / Triceps",
  ex "Inverted Rows" "4×10" "Back / Biceps",
  ex "Jump Squats" "4×10" "Quads / Glutes",
  ex "Dips (Chair)" "3×10" "Triceps / Chest",
  ex "Pike Push-ups" "3×10" "Shoulders",
  ex "Plank to Push-up" "3×8" "Core / Chest"]

/-- EXERCISE_DB["Beginner"]["Muscle Gain"]["Dumbbells"]. -/
def begMG_dumbbells : List Exercise := [
  ex "DB Bench Press" "4×10" "Chest",
  ex "DB Deadlift" "4×10" "Posterior Chain",
  ex "DB Squat" "4×12" "Quads / Glutes",
  ex "DB Overhead Press" "4×10" "Shoulders",
  ex "DB Row" "4×10" "Back",
  ex "DB Curl + Press" "3×10" "Biceps / Shoulders"]

/-- EXERCISE_DB["Intermediate"]["Weight Loss"]["Bodyweight"]. -/
def intWL_bodyweight : List Exercise := [
  ex "Burpees" "4×10" "Full Body",
  ex "Box Jumps" "4×8" "Legs / Power",
  ex "Spiderman Push-ups" "4×10" "Chest / Core",
  ex "Bulgarian Split Squat" "3×12" "Quads / Glutes",
  ex "Bear Crawls" "3×20m" "Full Body",
  ex "V-ups" "4×15" "Core"]

/-- EXERCISE_DB["Intermediate"]["Weight Loss"]["Barbell"]. -/
def intWL_barbell : List Exercise := [
  ex "Barbell Squat" "4×10" "Quads / Glutes",
  ex "Deadlift" "4×8" "Posterior Chain",
  ex "Bench Press" "4×10" "Chest",
  ex "Bent-over Row" "4×10" "Back",
  ex "Overhead Press" "3×10" "Shoulders",
  ex "Romanian Deadlift" "3×12" "Hamstrings"]

/-- EXERCISE_DB["Intermediate"]["Muscle Gain"]["Barbell"]. -/
def intMG_barbell : List Exercise := [
  ex "Barbell Squat" "5×5" "Quads / Glutes",
  ex "Bench Press" "5×5" "Chest",
  ex "Deadlift" "4×5" "Full Posterior",
  ex "Barbell Row" "4×6" "Back",
  ex "Overhead Press" "4×6" "Shoulders",
  ex "Barbell Hip Thrust" "4×10" "Glutes"]

/-- EXERCISE_DB["Intermediate"]["Muscle Gain"]["Dumbbells"]. -/
def intMG_dumbbells : List Exercise := [
  ex "DB Incline Press" "4×10" "Upper Chest",
  ex "DB Lateral Raise" "4×15" "Side Delts",
  ex "Hammer Curl" "3×12" "Biceps / Brachialis",
  ex "Skull Crushers" "3×12" "Triceps",
  ex "Bulgarian Split Squat" "4×10" "Quads / Glutes",
  ex "DB Shrugs" "3×15" "Traps"]

/-- EXERCISE_DB["Advanced"]["Muscle Gain"]["Barbell"]. -/
def advMG_barbell : List Exercise := [
  ex "Squat (Heavy)" "6×4" "Quads / Glutes",
  ex "Deadlift (Heavy)" "5×3" "Full Posterior",
  ex "Bench Press (Heavy)" "5×4" "Chest",
  ex "Weighted Pull-ups" "5×5" "Back / Biceps",
  ex "Push Press" "4×5" "Shoulders / Triceps",
  ex "Barbell Lunge" "4×8/leg" "Quads / Glutes"]

/-- EXERCISE_DB["Advanced"]["Muscle Gain"]["Bodyweight"]. -/
def advMG_bodyweight : List Exercise := [
  ex "Muscle-ups" "4×5" "Full Upper Body",
  ex "Pistol Squats" "4×6/leg" "Quads / Balance",
  ex "Handstand Push-ups" "3×6" "Shoulders / Triceps",
  ex "Dragon Flags" "3×6" "Core",
  ex "One-arm Row" "4×8" "Back",
  ex "Plyometric Push-ups" "4×10" "Chest / Power"]

/-- EXERCISE_DB["Advanced"]["Endurance"]["Bodyweight"]. -/
def advEnd_bodyweight : List Exercise := [
  ex "EMOM Burpees (10min)" "1×10min" "Full Body",
  ex "Double Unders" "5×50" "Cardio / Calves",
  ex "Air Squats Tabata" "8×20s" "Legs",
  ex "Pull-ups AMRAP" "4×max" "Back / Biceps",
  ex "Push-up AMRAP" "4×max" "Chest / Triceps",
  ex "L-sit Hold" "4×15s" "Core"]

/-- EXERCISE_DB["Elite"]["Muscle Gain"]["Barbell"]. -/
def eliteMG_barbell : List Exercise := [
  ex "Competition Squat" "7×3" "Quads / Glutes",
  ex "Sumo Deadlift" "6×2" "Full Posterior",
  ex "Close-grip Bench" "5×4" "Chest / Triceps",
  ex "Pendlay Row" "5×5" "Back",
  ex "Z-press" "4×6" "Shoulders",
  ex "Pause Squat" "4×5" "Quads / Core"]

/-- EXERCISE_DB["Elite"]["Muscle Gain"]["Bodyweight"]. -/
def eliteMG_bodyweight : List Exercise := [
  ex "Ring Muscle-ups" "5×5" "Full Upper Body",
  ex "Planche Hold" "5×5s" "Chest / Core",
  ex "Front Lever Row" "4×5" "Back",
  ex "HSPUs (Strict)" "5×5" "Shoulders",
  ex "Pistol Squat Depth" "4×8/leg" "Quads",
  ex "Dragon Flag" "4×8" "Core"]

/-- EXERCISE_DB["Beginner"]: goal → equipment tier → exercises, insertion
order as in the source. -/
def beginnerDB : List (String × List (String × List Exercise)) := [
  ("Weight Loss", [("Bodyweight", begWL_bodyweight), ("Dumbbells", begWL_dumbbells)]),
  ("Muscle Gain", [("Bodyweight", begMG_bodyweight), ("Dumbbells", begMG_dumbbells)])]

/-- EXERCISE_DB["Intermediate"]. -/
def intermediateDB : List (String × List (String × List Exercise)) := [
  ("Weight Loss", [("Bodyweight", intWL_bodyweight), ("Barbell", intWL_barbell)]),
  ("Muscle Gain", [("Barbell", intMG_barbell), ("Dumbbells", intMG_dumbbells)])]

/-- EXERCISE_DB["Advanced"]. -/
def advancedDB : List (String × List (String × List Exercise)) := [
  ("Muscle Gain", [("Barbell", advMG_barbell), ("Bodyweight", advMG_bodyweight)]),
  ("Endurance", [("Bodyweight", advEnd_bodyweight)])]

/-- EXERCISE_DB["Elite"]. -/
def eliteDB : List (String × List (String × List Exercise)) := [
  ("Muscle Gain", [("Barbell", eliteMG_barbell), ("Bodyweight", eliteMG_bodyweight)])]

/-- `EXERCISE_DB` from planner.py. -/
def EXERCISE_DB : List (String × List (String × List (String × List Exercise))) := [
  ("Beginner", beginnerDB),
  ("Intermediate", intermediateDB),
  ("Advanced", advancedDB),
  ("Elite", eliteDB)]

/-- The "General Fitness" row of `WEEKLY_STRUCTURE` (the fallback for
unknown goals). -/
def generalFitnessStructure : List String :=
  ["Full Body", "Cardio", "Rest", "Upper", "Lower", "Cardio", "Rest"]

/-- `WEEKLY_STRUCTURE` from planner.py. -/
def WEEKLY_STRUCTURE : List (String × List String) := [
  ("Weight Loss", ["Full Body HIIT", "Rest / Walk", "Upper Body", "Cardio", "Lower Body", "Full Body", "Rest"]),
  ("Muscle Gain", ["Push", "Pull", "Legs", "Rest", "Push", "Pull", "Legs"]),
  ("Endurance", ["Cardio", "Strength", "Cardio", "Rest", "Cardio", "Strength", "Long Cardio"]),
  ("General Fitness", generalFitnessStructure),
  ("Maintenance", ["Full Body", "Rest", "Full Body", "Cardio", "Full Body", "Cardio", "Rest"])]

/-- `DAYS` from planner.py. -/
def DAYS : List String :=
  ["Monday", "Tuesday", "Wednesday", "Thursday", "Friday", "Saturday", "Sunday"]

/-- The `priority` list of `_rank_equipment`. -/
def EQUIPMENT_PRIORITY : List String :=
  ["Barbell", "Dumbbells", "Resistance Bands", "Bodyweight", "Machines"]

/-- `_rank_equipment(equipment)`: the priority tiers the user owns, in
priority order, followed by the tiers the user does not own, in priority
order. -/
def rank_equipment (equipment : List String) : List String :=
  EQUIPMENT_PRIORITY.filter (fun e => equipment.contains e) ++
    EQUIPMENT_PRIORITY.filter (fun e => !(equipment.contains e))

/-- Lines 163–164 of `WorkoutPlanner.generate`:
`level_db = EXERCISE_DB.get(fitness_level, EXERCISE_DB["Intermediate"])`;
`goal_db = level_db.get(fitness_goal, next(iter(level_db.values())))`. -/
def goalDB (fitness_level fitness_goal : String) :
    List (String × List Exercise) :=
  let level_db := dget EXERCISE_DB fitness_level intermediateDB
  dget level_db fitness_goal (firstVal level_db [])

/-- Lines 167–168 of `WorkoutPlanner.generate`:
`equip_order = _rank_equipment(available_equipment)`;
`exercises = goal_db.get(equip_order[0], next(iter(goal_db.values())))`.
`equip_order` is always a permutation of the five priority tiers, hence
non-empty, so `headD` never falls back. -/
def resolveExercises (fitness_level fitness_goal : String)
    (available_equipment : List String) : List Exercise :=
  let goal_db := goalDB fitness_level fitness_goal
  let equip_order := rank_equipment available_equipment
  dget goal_db (equip_order.headD "") (firstVal goal_db [])

/-- `pat in s` on Python strings, on the underlying character lists:
`charsPrefix pat l` is "pat is a prefix of l". -/
def charsPrefix : List Char → List Char → Bool
  | [], _ => true
  | _ :: _, [] => false
  | p :: ps, c :: cs => p == c && charsPrefix ps cs

/-- `pat` occurs somewhere in the text. -/
def charsOccur : List Char → List Char → Bool
  | pat, [] => pat.isEmpty
  | pat, c :: cs => charsPrefix pat (c :: cs) || charsOccur pat cs

/-- Python's `pat in s` substring test. -/
def strContains (s pat : String) : Bool := charsOccur pat.data s.data

/-- The `base_notes` table of `_workout_note`. -/
def base_notes : List (String × String) := [
  ("Full Body HIIT", "Keep rest < 30s; heart rate 75-85% max."),
  ("Upper Body", "Focus on mind-muscle connection; controlled negatives."),
  ("Lower Body", "Drive through heels; full depth on squats."),
  ("Push", "Progressive overload: add 2.5kg when you hit top of rep range."),
  ("Pull", "Control the eccentric; aim for full shoulder extension."),
  ("Legs", "Warm up thoroughly; prioritise form over load."),
  ("Cardio", "Maintain conversational pace for aerobic base."),
  ("Strength", "Rest 2-3 min between heavy sets."),
  ("Full Body", "Compound-first ordering; save isolation for the end."),
  ("Long Cardio", "Zone 2 intensity: 60-70% max HR for 45-90 min.")]

/-- `_workout_note(focus, goal, nlp_notes)`: the focus-specific base note,
with the first personalization note appended after a star when any exists
(`goal` is accepted but unused, as in the source). -/
def workout_note (focus goal : String) (nlp_notes : List String) : String :=
  let note := dget base_notes focus "Focus on quality reps over speed."
  match nlp_notes with
  | [] => note
  | n :: _ => note ++ " ★ " ++ n

/-- One element of the list `WorkoutPlanner.generate` returns. -/
structure DayEntry where
  day : String
  focus : String
  type : String
  exercises : List Exercise
  duration_min : ℕ
  notes : String

/-- The body of the `for i, (day, focus) in enumerate(zip(DAYS, structure))`
loop of `WorkoutPlanner.generate`.  `shuffle` models
`random.Random(seed).shuffle` on a copy of the list — a deterministic
permutation chosen by the seed — and `hashLevel` models the session-fixed
`hash(fitness_level)`, so the seed `i + hash(fitness_level)` becomes
`(i : ℤ) + hashLevel`. -/
def buildDay (shuffle : ℤ → List Exercise → List Exercise) (hashLevel : ℤ)
    (fitness_level fitness_goal : String) (exercises : List Exercise)
    (nlp_notes : List String) (i : ℕ) (day focus : String) : DayEntry :=
  if strContains focus "Rest" then
    { day := day, focus := focus, type := "rest", exercises := [],
      duration_min := 0,
      notes := "Active recovery: light walking or stretching" }
  else
    let shuffled := shuffle ((i : ℤ) + hashLevel) exercises
    let n := min 6 (max 4 shuffled.length)
    { day := day, focus := focus, type := "workout",
      exercises := shuffled.take n,
      duration_min :=
        if fitness_level = "Beginner" ∨ fitness_level = "Intermediate"
        then 45 else 60,
      notes := workout_note focus fitness_goal nlp_notes }

/-- `WorkoutPlanner.generate(fitness_level, fitness_goal,
available_equipment, notes)`, with the random shuffle and the string hash
passed explicitly (see `buildDay`). -/
def WorkoutPlanner_generate (shuffle : ℤ → List Exercise → List Exercise)
    (hashLevel : ℤ) (fitness_level fitness_goal : String)
    (available_equipment nlp_notes : List String) : List DayEntry :=
  let structureRow := dget WEEKLY_STRUCTURE fitness_goal generalFitnessStructure
  let exercises := resolveExercises fitness_level fitness_goal available_equipment
  (DAYS.zip structureRow).enum.map
    (fun p => buildDay shuffle hashLevel fitness_level fitness_goal
      exercises nlp_notes p.1 p.2.1 p.2.2)

/-- Lines 76–77 of `render_user_input_section`:
`if not equipment: equipment = ["Bodyweight"]`. -/
def normalize_equipment (equipment : List String) : List String :=
  if equipment.isEmpty then ["Bodyweight"] else equipment

/-- The `activity_ohe` one-hot block of `_compute_plan` (app_f.py lines
138–144), in the order the feature row uses: `activity_level_active`,
`activity_level_light`, `activity_level_moderate`,
`activity_level_sedentary`, `activity_level_very active`. -/
def activity_ohe (activity : String) : List ℚ := [
  if activity = "Very Active" then 1 else 0,
  if activity = "Lightly Active" then 1 else 0,
  if activity = "Moderately Active" then 1 else 0,
  if activity = "Sedentary" then 1 else 0,
  if activity = "Extremely Active" then 1 else 0]

/-- The single row of `cluster_features` (app_f.py lines 145–153):
`[age, bmi]` followed by the five one-hot columns. -/
def cluster_features (age bmival : ℚ) (activity : String) : List ℚ :=
  [age, bmival] ++ activity_ohe activity

/-- The five recognised activity-level strings (the keys of
`ACTIVITY_MULTIPLIERS`, the strings the one-hot block tests). -/
def knownActivityLevels : List String :=
  ["Sedentary", "Lightly Active", "Moderately Active", "Very Active",
   "Extremely Active"]

/-! ### Theorems -/

/-- Any property holding of the default and of every value of the dictionary
holds of a `dget` result. -/
theorem dget_prop {β : Type} (P : β → Prop) (d : List (String × β)) (k : String)
    (dflt : β) (hd : P dflt) (hall : ∀ p ∈ d, P p.2) : P (dget d k dflt) := by
  induction d with
  | nil => simpa [dget] using hd
  | cons p rest ih =>
    unfold dget
    cases hbe : (k == p.1) with
    | true => simpa [List.lookup, hbe] using hall p (by simp)
    | false =>
      simp only [List.lookup, hbe]
      exact ih fun q hq => hall q (by simp [hq])

/-- Any property holding of the default and of every value of the dictionary
holds of a `firstVal` result. -/
theorem firstVal_prop {β : Type} (P : β → Prop) (d : List (String × β))
    (dflt : β) (hd : P dflt) (hall : ∀ p ∈ d, P p.2) : P (firstVal d dflt) := by
  cases d with
  | nil => simpa [firstVal] using hd
  | cons p rest => simpa [firstVal] using hall p (by simp)

theorem ratFloor_eq_floor (q : ℚ) : ratFloor q = ⌊q⌋ := by
  unfold ratFloor
  rw [Int.fdiv_eq_ediv _ (by exact_mod_cast q.den.zero_le), Rat.floor_def]

theorem roundHalfEven_abs_le (y : ℚ) : |(roundHalfEven y : ℚ) - y| ≤ 1/2 := by
  unfold roundHalfEven
  rw [ratFloor_eq_floor]
  split_ifs with h1 h2
  · rw [abs_le]; constructor <;> linarith [Int.floor_le y]
  · push_cast; rw [abs_le]; constructor <;> linarith [Int.floor_le y]
  · rw [abs_sub_comm]; exact abs_sub_round y

theorem pyRound_abs_le (n : ℕ) (x : ℚ) : |pyRound n x - x| ≤ 1 / (2 * 10^n) := by
  have h10 : (0:ℚ) < 10^n := by positivity
  have key : pyRound n x - x = ((roundHalfEven (10^n * x) : ℚ) - 10^n * x) / 10^n := by
    unfold pyRound; field_simp
  have h2 : (1:ℚ)/(2*10^n) = (1/2)/10^n := by ring
  rw [key, abs_div, abs_of_pos h10, h2]
  gcongr
  exact roundHalfEven_abs_le (10^n * x)

/-- C1 counterexample: for the worked-example profile the Harris-Benedict
male formula gives bmr = 1683.026, which exceeds the spec's stated 1674.2
by more than 8 kcal — far beyond any reading of "approx". -/
theorem claim_C1_counterexample :
    bmr exampleProfile = 1683.026 ∧ 1674.2 + 8 < bmr exampleProfile := by
  constructor <;> norm_num [bmr, exampleProfile]

/-- C1 (amended): for the profile {age=28, gender=Male, height_cm=170,
weight_kg=70, activity_level=Moderately Active, fitness_goal=Weight Loss},
the derived metrics are bmi = 24.22 (after the pipeline's 2-decimal
rounding), bmr = 1683.026 (1683.0 after 1-decimal rounding), tdee =
2608.6903 (2608.7 after 1-decimal rounding), and the Weight Loss macro
percentage split is {protein: 0.35, carbs: 0.35, fat: 0.30}. -/
theorem claim_C1_amended :
    pyRound 2 (bmi exampleProfile) = 24.22 ∧
    bmr exampleProfile = 1683.026 ∧
    pyRound 1 (bmr exampleProfile) = 1683.0 ∧
    tdee exampleProfile = 2608.6903 ∧
    pyRound 1 (tdee exampleProfile) = 2608.7 ∧
    ∀ calories : ℚ,
      (compute_macros calories "Weight Loss").protein_pct = 0.35 ∧
      (compute_macros calories "Weight Loss").carbs_pct = 0.35 ∧
      (compute_macros calories "Weight Loss").fat_pct = 0.30 := by
  refine ⟨?_, ?_, ?_, ?_, ?_, ?_⟩
  · have hb : bmi exampleProfile = 7000/289 := by
      norm_num [bmi, exampleProfile]
    rw [hb, pyRound, roundHalfEven, ratFloor_eq_floor, round_eq]
    norm_num
  · norm_num [bmr, exampleProfile]
  · have hb : bmr exampleProfile = 1683.026 := by norm_num [bmr, exampleProfile]
    rw [hb, pyRound, roundHalfEven, ratFloor_eq_floor, round_eq]
    norm_num
  · have hmul : ∀ d : ℚ, dget ACTIVITY_MULTIPLIERS "Moderately Active" d = 1.55 :=
      fun d => rfl
    norm_num [tdee, bmr, exampleProfile, hmul]
  · have ht : tdee exampleProfile = 2608.6903 := by
      have hmul : ∀ d : ℚ, dget ACTIVITY_MULTIPLIERS "Moderately Active" d = 1.55 :=
        fun d => rfl
      norm_num [tdee, bmr, exampleProfile, hmul]
    rw [ht, pyRound, roundHalfEven, ratFloor_eq_floor, round_eq]
    norm_num
  · intro calories
    have hsplit : dget macroSplits "Weight Loss" (0.25, 0.45, 0.30) =
        ((0.35 : ℚ), (0.35 : ℚ), (0.30 : ℚ)) := rfl
    refine ⟨?_, ?_, ?_⟩ <;> simp [compute_macros, hsplit]

/-- C2 counterexample: the code's band labels are "Obese Class I/II/III",
not the claim's "Obese I/II/III", and the top band stops at 999 rather
than ∞, so bmi = 999 reaches the "Unknown" branch. -/
theorem claim_C2_counterexample :
    bmi_category_label 999 = "Unknown" ∧
    bmi_category_label 30 = "Obese Class I" ∧
    "Unknown" ∉ ["Underweight", "Normal Weight", "Overweight",
      "Obese I", "Obese II", "Obese III"] ∧
    "Obese Class I" ∉ ["Underweight", "Normal Weight", "Overweight",
      "Obese I", "Obese II", "Obese III"] := by
  refine ⟨?_, ?_, by simp, by simp⟩ <;>
    · simp only [bmi_category_label, BMI_CATEGORIES, bmiCategoryScan]
      norm_num

/-- C2 (amended): for 0 ≤ bmi < 999 the scan returns one of the six fixed
labels "Underweight", "Normal Weight", "Overweight", "Obese Class I",
"Obese Class II", "Obese Class III", with lower bounds inclusive and upper
bounds exclusive (18.5 ↦ "Normal Weight", 18.49 ↦ "Underweight"); the bands
cover [0, 999), and for bmi ≥ 999 the "Unknown" branch is reached. -/
theorem claim_C2_amended (b : ℚ) (h0 : 0 ≤ b) :
    (b < 999 → bmi_category_label b ∈ ["Underweight", "Normal Weight",
      "Overweight", "Obese Class I", "Obese Class II", "Obese Class III"]) ∧
    (999 ≤ b → bmi_category_label b = "Unknown") ∧
    bmi_category_label (37/2) = "Normal Weight" ∧
    bmi_category_label (1849/100) = "Underweight" := by
  refine ⟨?_, ?_, ?_, ?_⟩
  · intro h999
    simp only [bmi_category_label, BMI_CATEGORIES, bmiCategoryScan]
    split_ifs with h1 h2 h3 h4 h5 h6 <;> try simp
    simp only [not_and, not_lt] at h1 h2 h3 h4 h5 h6
    have k1 := h1 h0
    have k2 := h2 (by linarith)
    have k3 := h3 (by linarith)
    have k4 := h4 (by linarith)
    have k5 := h5 (by linarith)
    have k6 := h6 (by linarith)
    linarith
  · intro h999
    simp only [bmi_category_label, BMI_CATEGORIES, bmiCategoryScan]
    split_ifs with h1 h2 h3 h4 h5 h6 <;> first
      | rfl
      | (exfalso; norm_num at *; linarith)
  · simp only [bmi_category_label, BMI_CATEGORIES, bmiCategoryScan]
    norm_num
  · simp only [bmi_category_label, BMI_CATEGORIES, bmiCategoryScan]
    norm_num

/-- C2 witness: the amended theorem applied at bmi = 20 and bmi = 1000. -/
theorem claim_C2_witness :
    (bmi_category_label 20 ∈ ["Underweight", "Normal Weight",
      "Overweight", "Obese Class I", "Obese Class II", "Obese Class III"]) ∧
    bmi_category_label 1000 = "Unknown" :=
  ⟨(claim_C2_amended 20 (by norm_num)).1 (by norm_num),
   (claim_C2_amended 1000 (by norm_num)).2.1 (by norm_num)⟩

/-- C3 counterexample: the calorie-predictor stub is not a deterministic
function of its input — on the same input `[[2400]]`, two calls whose
uniform(0.95, 1.05) draws differ (0.95 and 1, both possible draws) return
different outputs. -/
theorem claim_C3_counterexample :
    stubDTRPredict [[2400]] [0.95] ≠ stubDTRPredict [[2400]] [1] ∧
    jitterDraw 0.95 ∧ jitterDraw 1 := by
  refine ⟨?_, by constructor <;> norm_num, by constructor <;> norm_num⟩
  simp only [stubDTRPredict, List.headD, List.length_cons, List.zipWith]
  norm_num

/-- C3 (amended): four of the five load-failure stubs — scaler, cluster,
calorie-feature preprocessor, and text encoder — are deterministic
functions of their input: their outputs are independent of the ambient
random state, so two calls with identical input return identical outputs.
(The fifth, the calorie-predictor stub, consumes a fresh uniform draw per
call; see the counterexample.) -/
theorem claim_C3_amended (X df : List (List ℚ)) (hashAbs : List String → ℕ)
    (sentences : List String) (r r' : List ℚ) :
    stubScalerTransform X r = stubScalerTransform X r' ∧
    stubKMeansPredict X r = stubKMeansPredict X r' ∧
    stubPreprocessorTransform df r = stubPreprocessorTransform df r' ∧
    stubSTEncode hashAbs sentences r = stubSTEncode hashAbs sentences r' :=
  ⟨rfl, rfl, rfl, rfl⟩

/-- C9: whatever the raw model or stub prediction vector is,
`predict_calories` returns a value within [1200, 6000]. -/
theorem claim_C9 (result : List ℚ) :
    1200 ≤ predict_calories result ∧ predict_calories result ≤ 6000 :=
  ⟨le_min (le_max_right _ _) (by norm_num), min_le_right _ _⟩

/-- C7: for every similarity vector (one entry per candidate),
`match_preferences` returns at most 3 notes, each drawn from the fixed
candidate bank at an index whose similarity strictly exceeds 0.25; and
when no similarity exceeds 0.25 the result is the empty list. -/
theorem claim_C7 (sims : List ℚ) (level goal : String)
    (hlen : sims.length = (build_candidate_bank level goal).length) :
    (match_preferences sims (build_candidate_bank level goal)).length ≤ 3 ∧
    (∀ s ∈ match_preferences sims (build_candidate_bank level goal),
      s ∈ build_candidate_bank level goal ∧
      ∃ i, i < sims.length ∧ (build_candidate_bank level goal).getD i "" = s ∧
        sims.getD i 0 > 0.25) ∧
    ((∀ x ∈ sims, x ≤ 0.25) →
      match_preferences sims (build_candidate_bank level goal) = []) := by
  refine ⟨?_, ?_, ?_⟩
  · calc (match_preferences sims (build_candidate_bank level goal)).length
        = (((argsortDesc sims).take 3).filter
            (fun i => decide (sims.getD i 0 > 0.25))).length := by
          simp [match_preferences]
      _ ≤ ((argsortDesc sims).take 3).length := List.length_filter_le _ _
      _ ≤ 3 := by rw [List.length_take]; exact min_le_left _ _
  · intro s hs
    simp only [match_preferences, List.mem_map, List.mem_filter] at hs
    obtain ⟨i, ⟨htop, hgt⟩, rfl⟩ := hs
    have hmem : i ∈ argsortDesc sims := List.mem_of_mem_take htop
    have hrange : i < sims.length := by
      have : i ∈ List.range sims.length := by
        simpa [argsortDesc, List.mem_reverse, List.mem_mergeSort] using hmem
      simpa using this
    have hlt : i < (build_candidate_bank level goal).length := hlen ▸ hrange
    have hsim : sims.getD i 0 > 0.25 := of_decide_eq_true hgt
    refine ⟨?_, i, hrange, rfl, hsim⟩
    rw [List.getD_eq_getElem _ _ hlt]
    exact List.getElem_mem _
  · intro hall
    have hfilter : (((argsortDesc sims).take 3).filter
        (fun i => decide (sims.getD i 0 > 0.25))) = [] := by
      rw [List.filter_eq_nil_iff]
      intro i hi
      have hrange : i < sims.length := by
        have hmem : i ∈ argsortDesc sims := List.mem_of_mem_take hi
        have : i ∈ List.range sims.length := by
          simpa [argsortDesc, List.mem_reverse, List.mem_mergeSort] using hmem
        simpa using this
      have hle : sims.getD i 0 ≤ 0.25 := by
        rw [List.getD_eq_getElem _ _ hrange]
        exact hall _ (List.getElem_mem _)
      simp only [decide_eq_true_eq, not_lt]
      exact hle
    simp only [match_preferences]
    rw [hfilter]
    rfl

/-- C7 witness: the theorem applied to the all-zero similarity vector,
where the returned note list is empty. -/
theorem claim_C7_witness :
    (match_preferences (List.replicate 18 (0:ℚ))
      (build_candidate_bank "Beginner" "Weight Loss")).length ≤ 3 ∧
    match_preferences (List.replicate 18 (0:ℚ))
      (build_candidate_bank "Beginner" "Weight Loss") = [] :=
  ⟨(claim_C7 (List.replicate 18 (0:ℚ)) "Beginner" "Weight Loss" rfl).1,
   (claim_C7 (List.replicate 18 (0:ℚ)) "Beginner" "Weight Loss" rfl).2.2
     (fun x hx => by rw [List.eq_of_mem_replicate hx]; norm_num)⟩

/-- `firstVal` of a non-empty dictionary whose values all satisfy `P`
satisfies `P`. -/
theorem firstVal_prop_ne {β : Type} (P : β → Prop) (d : List (String × β))
    (dflt : β) (hne : d ≠ []) (hall : ∀ p ∈ d, P p.2) : P (firstVal d dflt) := by
  cases d with
  | nil => exact absurd rfl hne
  | cons p rest => simpa [firstVal] using hall p (by simp)

/-- Every goal-level catalog the planner can resolve is a non-empty
dictionary whose exercise lists all have exactly 6 entries. -/
theorem goalDB_prop (fitness_level fitness_goal : String) :
    goalDB fitness_level fitness_goal ≠ [] ∧
    ∀ p ∈ goalDB fitness_level fitness_goal, p.2.length = 6 := by
  have h1 := dget_prop
    (fun gd => gd ≠ [] ∧ ∀ q ∈ gd, q.2 ≠ [] ∧ ∀ p ∈ q.2, p.2.length = 6)
    EXERCISE_DB fitness_level intermediateDB (by decide) (by decide)
  unfold goalDB
  exact dget_prop (fun edb => edb ≠ [] ∧ ∀ p ∈ edb, p.2.length = 6)
    (dget EXERCISE_DB fitness_level intermediateDB) fitness_goal
    (firstVal (dget EXERCISE_DB fitness_level intermediateDB) [])
    (firstVal_prop_ne (fun edb => edb ≠ [] ∧ ∀ p ∈ edb, p.2.length = 6)
      (dget EXERCISE_DB fitness_level intermediateDB) [] h1.1 h1.2) h1.2

/-- Whatever the level, goal and equipment, the resolved exercise list has
exactly 6 entries. -/
theorem resolveExercises_length (fitness_level fitness_goal : String)
    (available_equipment : List String) :
    (resolveExercises fitness_level fitness_goal available_equipment).length = 6 := by
  have hg := goalDB_prop fitness_level fitness_goal
  unfold resolveExercises
  exact dget_prop (fun l : List Exercise => l.length = 6)
    (goalDB fitness_level fitness_goal) _ _
    (firstVal_prop_ne (fun l : List Exercise => l.length = 6)
      (goalDB fitness_level fitness_goal) [] hg.1 hg.2) hg.2

/-- Whatever the goal, the resolved weekly structure row has 7 entries. -/
theorem weeklyStructure_length (fitness_goal : String) :
    (dget WEEKLY_STRUCTURE fitness_goal generalFitnessStructure).length = 7 :=
  dget_prop (fun r : List String => r.length = 7) _ _ _ (by decide) (by decide)

/-- C4 counterexample: with equipment {Dumbbells, Bodyweight} for the
Advanced / Muscle Gain catalog (keys Barbell, Bodyweight), the user owns
Bodyweight and Bodyweight is in the catalog, yet generate resolves the
Barbell entry: it looks up only the single highest-priority owned tier
(Dumbbells), misses, and falls back to the catalog's first entry instead
of the owned Bodyweight entry the claim requires. -/
theorem claim_C4_counterexample :
    "Bodyweight" ∈ ["Dumbbells", "Bodyweight"] ∧
    List.lookup "Bodyweight" (goalDB "Advanced" "Muscle Gain") =
      some advMG_bodyweight ∧
    resolveExercises "Advanced" "Muscle Gain" ["Dumbbells", "Bodyweight"] =
      advMG_barbell ∧
    advMG_barbell ≠ advMG_bodyweight := by
  refine ⟨by simp, rfl, rfl, by decide⟩

/-- C4 (amended): `WorkoutPlanner.generate` looks up only the single first
element of the ranked equipment list — the highest-priority tier the user
owns, or "Barbell" when the user owns none of the five ranked tiers — in
the resolved catalog; if that one key is absent it falls back to the
catalog's first entry, regardless of whether any other owned tier appears
in the catalog. -/
theorem claim_C4_amended (fitness_level fitness_goal : String)
    (available_equipment : List String) :
    (EQUIPMENT_PRIORITY.filter (fun e => available_equipment.contains e) = [] →
      resolveExercises fitness_level fitness_goal available_equipment =
        dget (goalDB fitness_level fitness_goal) "Barbell"
          (firstVal (goalDB fitness_level fitness_goal) [])) ∧
    (∀ e rest,
      EQUIPMENT_PRIORITY.filter (fun x => available_equipment.contains x) =
        e :: rest →
      resolveExercises fitness_level fitness_goal available_equipment =
        dget (goalDB fitness_level fitness_goal) e
          (firstVal (goalDB fitness_level fitness_goal) [])) := by
  constructor
  · intro hnone
    have hnot : EQUIPMENT_PRIORITY.filter
        (fun x => !(available_equipment.contains x)) = EQUIPMENT_PRIORITY := by
      rw [List.filter_eq_self]
      intro a ha
      have := List.filter_eq_nil_iff.mp hnone a ha
      simpa using this
    simp only [resolveExercises, rank_equipment]
    rw [hnone, hnot]
    rfl
  · intro e rest hcons
    simp only [resolveExercises, rank_equipment]
    rw [hcons]
    rfl

/-- C4 witness: the amended theorem applied to a user owning only
Dumbbells, for the Beginner / Weight Loss catalog. -/
theorem claim_C4_witness :
    resolveExercises "Beginner" "Weight Loss" ["Dumbbells"] =
      dget (goalDB "Beginner" "Weight Loss") "Dumbbells"
        (firstVal (goalDB "Beginner" "Weight Loss") []) :=
  (claim_C4_amended "Beginner" "Weight Loss" ["Dumbbells"]).2
    "Dumbbells" [] rfl

/-- C5: an empty equipment list is normalized to ["Bodyweight"] by the
input layer before the planner runs, so plan generation for an
empty-equipment profile resolves exercises exactly as if the user owned
only Bodyweight equipment. -/
theorem claim_C5 (shuffle : ℤ → List Exercise → List Exercise)
    (hashLevel : ℤ) (fitness_level fitness_goal : String)
    (nlp_notes : List String) :
    normalize_equipment [] = ["Bodyweight"] ∧
    resolveExercises fitness_level fitness_goal (normalize_equipment []) =
      resolveExercises fitness_level fitness_goal ["Bodyweight"] ∧
    WorkoutPlanner_generate shuffle hashLevel fitness_level fitness_goal
        (normalize_equipment []) nlp_notes =
      WorkoutPlanner_generate shuffle hashLevel fitness_level fitness_goal
        ["Bodyweight"] nlp_notes :=
  ⟨rfl, rfl, rfl⟩

/-- The day name of a built entry is the zipped day, in both branches. -/
theorem buildDay_day (shuffle : ℤ → List Exercise → List Exercise)
    (hashLevel : ℤ) (fitness_level fitness_goal : String)
    (exercises : List Exercise) (nlp_notes : List String)
    (i : ℕ) (day focus : String) :
    (buildDay shuffle hashLevel fitness_level fitness_goal exercises
      nlp_notes i day focus).day = day := by
  unfold buildDay
  split_ifs <;> rfl

/-- The focus label of a built entry is the zipped focus, in both
branches. -/
theorem buildDay_focus (shuffle : ℤ → List Exercise → List Exercise)
    (hashLevel : ℤ) (fitness_level fitness_goal : String)
    (exercises : List Exercise) (nlp_notes : List String)
    (i : ℕ) (day focus : String) :
    (buildDay shuffle hashLevel fitness_level fitness_goal exercises
      nlp_notes i day focus).focus = focus := by
  unfold buildDay
  split_ifs <;> rfl

/-- C6: for every fitness level, goal, equipment list and note list — and
every length-preserving shuffle (Python's `random.Random(seed).shuffle`
permutes, hence preserves length) — the generated plan has exactly 7
entries, in the fixed weekday order Monday through Sunday; every entry
whose focus contains "Rest" has an empty exercise list; and every other
entry has between 4 and 6 exercises. -/
theorem claim_C6 (shuffle : ℤ → List Exercise → List Exercise)
    (hashLevel : ℤ) (fitness_level fitness_goal : String)
    (available_equipment nlp_notes : List String)
    (hshuffle : ∀ s l, (shuffle s l).length = l.length) :
    (WorkoutPlanner_generate shuffle hashLevel fitness_level fitness_goal
      available_equipment nlp_notes).length = 7 ∧
    (WorkoutPlanner_generate shuffle hashLevel fitness_level fitness_goal
      available_equipment nlp_notes).map (fun e => e.day) = DAYS ∧
    ∀ e ∈ WorkoutPlanner_generate shuffle hashLevel fitness_level
        fitness_goal available_equipment nlp_notes,
      (strContains e.focus "Rest" = true → e.exercises = []) ∧
      (strContains e.focus "Rest" = false →
        4 ≤ e.exercises.length ∧ e.exercises.length ≤ 6) := by
  have hsl := weeklyStructure_length fitness_goal
  have hz : (DAYS.zip
      (dget WEEKLY_STRUCTURE fitness_goal generalFitnessStructure)).length = 7 := by
    rw [List.length_zip, hsl]
    rfl
  refine ⟨?_, ?_, ?_⟩
  · simp only [WorkoutPlanner_generate]
    rw [List.length_map, List.enum_length, hz]
  · simp only [WorkoutPlanner_generate]
    rw [List.map_map]
    have hcongr : ∀ p ∈ (DAYS.zip
        (dget WEEKLY_STRUCTURE fitness_goal generalFitnessStructure)).enum,
        ((fun e : DayEntry => e.day) ∘
          (fun p : ℕ × String × String =>
            buildDay shuffle hashLevel fitness_level fitness_goal
              (resolveExercises fitness_level fitness_goal available_equipment)
              nlp_notes p.1 p.2.1 p.2.2)) p =
        (fun p : ℕ × String × String => p.2.1) p := by
      intro p _
      exact buildDay_day shuffle hashLevel fitness_level fitness_goal _ _ _ _ _
    rw [List.map_congr_left hcongr]
    have hsplit : (fun p : ℕ × String × String => p.2.1) =
        (fun q : String × String => q.1) ∘ (fun p : ℕ × String × String => p.2) := rfl
    rw [hsplit, ← List.map_map, List.enum_map_snd]
    exact List.map_fst_zip _ _ (le_of_eq (by rw [hsl]; rfl))
  · intro e he
    simp only [WorkoutPlanner_generate, List.mem_map] at he
    obtain ⟨p, hp, rfl⟩ := he
    have hlen6 : (shuffle ((p.1 : ℤ) + hashLevel)
        (resolveExercises fitness_level fitness_goal available_equipment)).length = 6 := by
      rw [hshuffle]
      exact resolveExercises_length _ _ _
    by_cases hres : strContains p.2.2 "Rest" = true
    · constructor
      · intro _
        simp [buildDay, hres]
      · intro hfoc
        rw [buildDay_focus, hres] at hfoc
        simp at hfoc
    · have hres' : strContains p.2.2 "Rest" = false :=
        Bool.eq_false_iff.mpr hres
      constructor
      · intro hfoc
        rw [buildDay_focus, hres'] at hfoc
        simp at hfoc
      · intro _
        simp only [buildDay, hres', Bool.false_eq_true, if_false,
          List.length_take, hlen6]
        constructor <;> decide

/-- C6 witness: the theorem applied to the identity shuffle (a permutation)
for a concrete Beginner / Weight Loss / Bodyweight profile. -/
theorem claim_C6_witness :
    (WorkoutPlanner_generate (fun _ l => l) 0 "Beginner" "Weight Loss"
      ["Bodyweight"] []).length = 7 ∧
    (WorkoutPlanner_generate (fun _ l => l) 0 "Beginner" "Weight Loss"
      ["Bodyweight"] []).map (fun e => e.day) = DAYS :=
  ⟨(claim_C6 (fun _ l => l) 0 "Beginner" "Weight Loss" ["Bodyweight"] []
      (fun _ _ => rfl)).1,
   (claim_C6 (fun _ l => l) 0 "Beginner" "Weight Loss" ["Bodyweight"] []
      (fun _ _ => rfl)).2.1⟩

/-- C10: in the cluster feature row, the five one-hot columns are each 0
or 1 and sum to at most 1; they sum to exactly 1 iff the activity string
is one of the five known levels; the column assignment sends
"Very Active" to the first (`activity_level_active`) column and
"Extremely Active" to the last (`activity_level_very active`) column; an
unknown activity string yields the all-zero block; and the feature row
always has 7 columns. -/
theorem claim_C10 (activity : String) :
    (activity_ohe activity).sum ≤ 1 ∧
    (∀ x ∈ activity_ohe activity, x = 0 ∨ x = 1) ∧
    ((activity_ohe activity).sum = 1 ↔ activity ∈ knownActivityLevels) ∧
    activity_ohe "Very Active" = [1, 0, 0, 0, 0] ∧
    activity_ohe "Extremely Active" = [0, 0, 0, 0, 1] ∧
    (activity ∉ knownActivityLevels → activity_ohe activity = [0, 0, 0, 0, 0]) ∧
    ∀ age bmival : ℚ, (cluster_features age bmival activity).length = 7 := by
  have key : (activity ∈ knownActivityLevels ∧ (activity_ohe activity).sum = 1) ∨
      (activity ∉ knownActivityLevels ∧
        activity_ohe activity = [0, 0, 0, 0, 0]) := by
    by_cases h1 : activity = "Sedentary"
    · subst h1
      exact Or.inl ⟨by simp [knownActivityLevels], by simp [activity_ohe]⟩
    by_cases h2 : activity = "Lightly Active"
    · subst h2
      exact Or.inl ⟨by simp [knownActivityLevels], by simp [activity_ohe]⟩
    by_cases h3 : activity = "Moderately Active"
    · subst h3
      exact Or.inl ⟨by simp [knownActivityLevels], by simp [activity_ohe]⟩
    by_cases h4 : activity = "Very Active"
    · subst h4
      exact Or.inl ⟨by simp [knownActivityLevels], by simp [activity_ohe]⟩
    by_cases h5 : activity = "Extremely Active"
    · subst h5
      exact Or.inl ⟨by simp [knownActivityLevels], by simp [activity_ohe]⟩
    exact Or.inr ⟨by simp [knownActivityLevels, h1, h2, h3, h4, h5],
      by simp [activity_ohe, h1, h2, h3, h4, h5]⟩
  refine ⟨?_, ?_, ?_, by simp [activity_ohe], by simp [activity_ohe], ?_, ?_⟩
  · rcases key with ⟨_, hs⟩ | ⟨_, hz⟩
    · rw [hs]
    · rw [hz]; norm_num
  · intro x hx
    simp only [activity_ohe, List.mem_cons, List.not_mem_nil, or_false] at hx
    rcases hx with rfl | rfl | rfl | rfl | rfl <;> split_ifs <;> simp
  · constructor
    · intro hsum
      rcases key with ⟨hk, _⟩ | ⟨_, hz⟩
      · exact hk
      · rw [hz] at hsum; norm_num at hsum
    · intro hk
      rcases key with ⟨_, hs⟩ | ⟨hnk, _⟩
      · exact hs
      · exact absurd hk hnk
  · intro hk
    rcases key with ⟨hmem, _⟩ | ⟨_, hz⟩
    · exact absurd hmem hk
    · exact hz
  · intro age bmival
    rfl

/-- C10 witness: the theorem applied at the unknown level "Yoga" and the
known level "Very Active". -/
theorem claim_C10_witness :
    activity_ohe "Yoga" = [0, 0, 0, 0, 0] ∧
    (activity_ohe "Very Active").sum = 1 :=
  ⟨(claim_C10 "Yoga").2.2.2.2.2.1 (by simp [knownActivityLevels]),
   (claim_C10 "Very Active").2.2.1.mpr (by simp [knownActivityLevels])⟩

/-- Rounding each gram value to one decimal perturbs the reconstructed
calorie total by at most 0.05·(4+4+9) = 0.85 kcal. -/
theorem macro_gram_bound (calories p cb f : ℚ) (hsum : p + cb + f = 1) :
    |pyRound 1 (calories * p / 4) * 4 + pyRound 1 (calories * cb / 4) * 4 +
      pyRound 1 (calories * f / 9) * 9 - calories| ≤ 0.85 := by
  have h1 := pyRound_abs_le 1 (calories * p / 4)
  have h2 := pyRound_abs_le 1 (calories * cb / 4)
  have h3 := pyRound_abs_le 1 (calories * f / 9)
  have hc : calories * p + calories * cb + calories * f = calories := by
    calc calories * p + calories * cb + calories * f
        = calories * (p + cb + f) := by ring
      _ = calories := by rw [hsum, mul_one]
  have hb : (1 : ℚ) / (2 * 10^1) = 1/20 := by norm_num
  rw [hb, abs_le] at h1 h2 h3
  rw [show (0.85 : ℚ) = 17/20 by norm_num, abs_le]
  constructor <;> linarith

/-- C8: for every fitness goal (unknown goals falling back to the General
Fitness row) the three macro percentages sum to exactly 1, and the gram
values reconstruct the predicted calories to within the 0.85 kcal
tolerance introduced by rounding each gram value to one decimal:
|protein_g·4 + carbs_g·4 + fat_g·9 − calories| ≤ 0.85. -/
theorem claim_C8 (goal : String) (calories : ℚ) :
    (compute_macros calories goal).protein_pct +
      (compute_macros calories goal).carbs_pct +
      (compute_macros calories goal).fat_pct = 1 ∧
    |(compute_macros calories goal).protein_g * 4 +
      (compute_macros calories goal).carbs_g * 4 +
      (compute_macros calories goal).fat_g * 9 - calories| ≤ 0.85 := by
  have hsum : (dget macroSplits goal (0.25, 0.45, 0.30)).1 +
      (dget macroSplits goal (0.25, 0.45, 0.30)).2.1 +
      (dget macroSplits goal (0.25, 0.45, 0.30)).2.2 = 1 := by
    refine dget_prop (fun t : ℚ × ℚ × ℚ => t.1 + t.2.1 + t.2.2 = 1)
      macroSplits goal _ (by norm_num) ?_
    intro p hp
    simp only [macroSplits, List.mem_cons, List.not_mem_nil, or_false] at hp
    rcases hp with rfl | rfl | rfl | rfl | rfl <;> norm_num
  exact ⟨hsum, macro_gram_bound calories _ _ _ hsum⟩
